import Mathlib

/-!
Shallow embedding of the simulator layer of `stormpy` (file
`lib/stormpy/simulator.py`): the mode enumerations, the sparse-model
simulator backend, and the factory function, together with theorems about
action resolution, observation reporting and error behaviour.

The model and the stepping engine are external collaborators of the
simulator; they appear here as an abstract interface (`Model`) carrying the
queries the simulator performs, plus the opaque engine dynamics
(`engine_step`, initial state and reset reward) that the C++ class
`_DiscreteTimeSparseModelSimulatorDouble` would supply for this model.
Python exceptions are reflected as an explicit error type, and a stateful
method returns the post-call object state together with either the result
or the raised error, so that mutation committed before a raise stays
visible (exactly as it would on the Python object).
-/

namespace Stormpy

/-- Observation granularity, `SimulatorObservationMode` in the source. -/
inductive SimulatorObservationMode
  | STATE_LEVEL
  | PROGRAM_LEVEL
deriving DecidableEq, Repr

/-- Action addressing, `SimulatorActionMode` in the source. -/
inductive SimulatorActionMode
  | INDEX_LEVEL
  | GLOBAL_NAMES
deriving DecidableEq, Repr

/-- The model-type tag exposed by the model service (`stormpy.storage.ModelType`). -/
inductive ModelType
  | DTMC
  | CTMC
  | MDP
  | MA
  | POMDP
deriving DecidableEq, Repr

/-- Python exceptions the simulator code can raise. -/
inductive PyError
  | runtimeError (msg : String)
  | valueError (msg : String)
  | assertionError (msg : String)
  | notImplementedError (msg : String)
  | attributeError (msg : String)
deriving DecidableEq, Repr

/-- The external model service, as seen through the queries the simulator
performs on it.  `get_labels_of_choice` returns the label set of a choice as
the list of its elements in iteration order; `state_valuations` is the
per-state JSON lookup (`get_json`) of the model's state-valuation object.
The `engine_*` fields are the opaque dynamics of the stepping engine bound
to this model: `engine_step s a` is the engine's successor state and
attached reward when stepping from `s` with raw action index `a`, or `none`
when the engine reports failure (returns a false check). -/
structure Model where
  model_type : ModelType
  is_sparse_model : Bool
  is_nondeterministic_model : Bool
  has_choice_labeling : Bool
  get_labels_of_choice : Nat → List String
  get_choice_index : Nat → Nat → Nat
  get_nr_available_actions : Nat → Nat
  has_state_valuations : Bool
  state_valuations : Nat → String
  get_observation : Nat → Nat
  is_sink_state : Nat → Bool
  engine_step : Nat → Int → Option (Nat × Int)
  engine_initial_state : Nat
  engine_initial_reward : Int

/-- Mutable state of the stepping engine: its current state and the reward
it attached to the most recent transition or reset. -/
structure Engine where
  current_state : Nat
  last_reward : Int
deriving DecidableEq, Repr

/-- An observation as reported to the caller: raw state identifier,
JSON-like valuation record, or POMDP observation-class identifier. -/
inductive Observation
  | state (s : Nat)
  | valuation (json : String)
  | obsClass (o : Nat)
deriving DecidableEq, Repr

/-- The (observation, reward) pair returned by `step`/`restart`. -/
abbrev StepResult := Observation × Int

/-- A Python value passed as the `action` argument of `step`: an integer or
a string (the `action=None` case is `Option.none` at the call site). -/
inductive PyAction
  | int (n : Int)
  | str (s : String)
deriving DecidableEq, Repr

/-- Printing of an action inside an f-string error message. -/
def PyAction.toStr : PyAction → String
  | .int n => toString n
  | .str s => s

/-- Python `action == label` where `label` is a string: an integer never
equals a string. -/
def pyEqLabel (a : PyAction) (l : String) : Bool :=
  match a with
  | .str s => s == l
  | .int _ => false

/-- The value returned by `available_actions`: a `range` object in index
mode, a list of label strings in global-names mode. -/
inductive AvailableActions
  | indices (n : Nat)
  | names (labels : List String)
deriving DecidableEq, Repr

/-- The state of a `SparseSimulator` object: the bound model, the engine
state, and the mutable configuration fields of the `Simulator` base class,
plus the cached state-valuations reference (`None` until
`set_observation_mode` stores it). -/
structure SparseSimulator where
  model : Model
  engine : Engine
  seed : Option Int
  observation_mode : SimulatorObservationMode
  action_mode : SimulatorActionMode
  full_observe : Bool
  state_valuations : Option (Nat → String)

namespace SparseSimulator

/-- `SparseSimulator.__init__`: bind the model, construct the engine at the
model's initial state, default the configuration fields, and default full
observability from the model's POMDP-ness. -/
def init (model : Model) (seed : Option Int) : SparseSimulator :=
  { model := model
  , engine := { current_state := model.engine_initial_state
              , last_reward := model.engine_initial_reward }
  , seed := seed
  , observation_mode := .STATE_LEVEL
  , action_mode := .INDEX_LEVEL
  , full_observe := model.model_type != .POMDP
  , state_valuations := none }

/-- `nr_available_actions`: 1 for a deterministic model, otherwise the
model's action count at the engine's current state. -/
def nr_available_actions (sim : SparseSimulator) : Nat :=
  if !sim.model.is_nondeterministic_model then 1
  else sim.model.get_nr_available_actions sim.engine.current_state

/-- One iteration of the loop body of `available_actions` in global-names
mode: the name for action offset `offset` at state `cur`, or the assertion
failure on a choice carrying more than one label. -/
def nameOfOffset (m : Model) (cur : Nat) (offset : Nat) : Except PyError String :=
  let choice_label := m.get_labels_of_choice (m.get_choice_index cur offset)
  if choice_label.length = 0 then .ok ("_act_" ++ toString offset)
  else if choice_label.length = 1 then .ok (choice_label.headD "")
  else .error (.assertionError "Unknown type of choice label, support not implemented")

/-- The loop of `available_actions` in global-names mode over a list of
action offsets: collect the names, aborting at the first failing offset
(the Python loop raises out of its body). -/
def buildNames (m : Model) (cur : Nat) : List Nat → Except PyError (List String)
  | [] => .ok []
  | offset :: rest =>
    match nameOfOffset m cur offset with
    | .error e => .error e
    | .ok name => (buildNames m cur rest).map (name :: ·)

/-- The global-names branch of `available_actions`: the labeling-presence
check followed by the loop over action offsets. -/
def named_actions (sim : SparseSimulator) : Except PyError (List String) :=
  if !sim.model.has_choice_labeling then
    .error (.runtimeError "Global names action mode requires model with choice labeling")
  else
    buildNames sim.model sim.engine.current_state (List.range sim.nr_available_actions)

/-- `available_actions`: the index range in index mode, the label list in
global-names mode. -/
def available_actions (sim : SparseSimulator) : Except PyError AvailableActions :=
  match sim.action_mode with
  | .INDEX_LEVEL => .ok (.indices sim.nr_available_actions)
  | .GLOBAL_NAMES => sim.named_actions.map .names

/-- The engine call `self._engine.step(a)`: `none` when the engine reports
failure (false check), otherwise the simulator with the engine advanced. -/
def engineStepRaw (sim : SparseSimulator) (a : Int) : Option SparseSimulator :=
  match sim.model.engine_step sim.engine.current_state a with
  | some (s, r) => some { sim with engine := { current_state := s, last_reward := r } }
  | none => none

/-- `_report_state`: the raw current state in state-level mode, the cached
valuations' JSON record in program-level mode (an attribute error when the
cache was never populated, as `None.get_json` would raise). -/
def report_state (sim : SparseSimulator) : Except PyError Observation :=
  match sim.observation_mode with
  | .STATE_LEVEL => .ok (.state sim.engine.current_state)
  | .PROGRAM_LEVEL =>
    match sim.state_valuations with
    | some sv => .ok (.valuation (sv sim.engine.current_state))
    | none => .error (.attributeError "NoneType object has no attribute get_json")

/-- `_report_observation`: asserts the model is a POMDP, then returns the
observation class in state-level mode and raises a not-implemented error in
program-level mode. -/
def report_observation (sim : SparseSimulator) : Except PyError Observation :=
  if sim.model.model_type != .POMDP then
    .error (.assertionError "")
  else
    match sim.observation_mode with
    | .STATE_LEVEL => .ok (.obsClass (sim.model.get_observation sim.engine.current_state))
    | .PROGRAM_LEVEL =>
      .error (.notImplementedError "Program level observations are not implemented in storm")

/-- `_report_rewards`: the engine's last reported reward. -/
def report_rewards (sim : SparseSimulator) : Int :=
  sim.engine.last_reward

/-- `_report_result`: pair the state report (full observability) or the
observation report (partial observability) with the reward report. -/
def report_result (sim : SparseSimulator) : Except PyError StepResult :=
  if sim.full_observe then
    sim.report_state.map (fun o => (o, sim.report_rewards))
  else
    sim.report_observation.map (fun o => (o, sim.report_rewards))

/-- The tail every `step` branch shares once a concrete index is resolved:
`check = self._engine.step(a); assert check; return self._report_result()`.
The object state is returned next to the outcome. -/
def stepEngine (sim : SparseSimulator) (a : Int) :
    SparseSimulator × Except PyError StepResult :=
  match sim.engineStepRaw a with
  | none => (sim, .error (.assertionError ""))
  | some sim1 => (sim1, sim1.report_result)

/-- The label scan of the global-names branch of `step`: the offset of the
first available action whose label the passed action equals. -/
def findActionIndex (a : PyAction) : List String → Option Nat
  | [] => none
  | l :: rest =>
    if pyEqLabel a l then some 0
    else (findActionIndex a rest).map (· + 1)

/-- `step`: resolve the action (omitted / integer under index addressing /
label scan under global names / unrecognized), then delegate the resolved
index to the engine and report.  The first component is the object state
after the call: unchanged whenever resolution raises. -/
def step (sim : SparseSimulator) (action : Option PyAction) :
    SparseSimulator × Except PyError StepResult :=
  match action with
  | none =>
    if sim.model.is_nondeterministic_model && decide (1 < sim.nr_available_actions) then
      (sim, .error (.runtimeError "Must specify an action in nondeterministic models."))
    else
      sim.stepEngine 0
  | some a =>
    match a, sim.action_mode with
    | .int n, .INDEX_LEVEL =>
      if (sim.nr_available_actions : Int) ≤ n then
        (sim, .error (.runtimeError
          ("Only " ++ toString sim.nr_available_actions ++ " actions available")))
      else
        sim.stepEngine n
    | _, _ =>
      if sim.action_mode == .GLOBAL_NAMES then
        match sim.named_actions with
        | .error e => (sim, .error e)
        | .ok av_actions =>
          match findActionIndex a av_actions with
          | none => (sim, .error (.valueError ("Could not find action: " ++ a.toStr)))
          | some action_index => sim.stepEngine (action_index : Int)
      else
        (sim, .error (.valueError ("Unrecognized type of action " ++ a.toStr)))

/-- `restart`: reset the engine to the model's initial state and report. -/
def restart (sim : SparseSimulator) : SparseSimulator × Except PyError StepResult :=
  let sim1 : SparseSimulator :=
    { sim with engine := { current_state := sim.model.engine_initial_state
                         , last_reward := sim.model.engine_initial_reward } }
  (sim1, sim1.report_result)

/-- `is_done`: whether the model classifies the current state as a sink. -/
def is_done (sim : SparseSimulator) : Bool :=
  sim.model.is_sink_state sim.engine.current_state

/-- `SparseSimulator.set_observation_mode`: the base class commits the mode
field first; the override then rejects program-level mode on a model
without state valuations (leaving the already-committed mode in place), and
otherwise caches the model's valuations reference. -/
def set_observation_mode (sim : SparseSimulator) (mode : SimulatorObservationMode) :
    SparseSimulator × Except PyError Unit :=
  let sim1 : SparseSimulator := { sim with observation_mode := mode }
  if sim1.observation_mode == .PROGRAM_LEVEL && !sim1.model.has_state_valuations then
    (sim1, .error (.runtimeError "Program level observations require model with state valuations"))
  else
    ({ sim1 with state_valuations := some sim1.model.state_valuations }, .ok ())

/-- `Simulator.set_action_mode` (the enum-membership check always passes on
a typed mode value). -/
def set_action_mode (sim : SparseSimulator) (mode : SimulatorActionMode) :
    SparseSimulator :=
  { sim with action_mode := mode }

/-- `Simulator.set_full_observability`. -/
def set_full_observability (sim : SparseSimulator) (value : Bool) : SparseSimulator :=
  { sim with full_observe := value }

/-- The same simulator object with its observability configuration — the
observation mode, the full-observability flag and the cached valuations —
replaced.  Used to compare two runs that differ only in these settings. -/
def withObservability (sim : SparseSimulator) (om : SimulatorObservationMode)
    (fo : Bool) (sv : Option (Nat → String)) : SparseSimulator :=
  { sim with observation_mode := om, full_observe := fo, state_valuations := sv }

/-- The action-resolution phase of `step` in isolation: either the
validation error `step` raises before touching the engine, or the raw
index it hands to the engine.  It reads only the model, the engine state
and the action mode. -/
def resolveAction (sim : SparseSimulator) (action : Option PyAction) : Except PyError Int :=
  match action with
  | none =>
    if sim.model.is_nondeterministic_model && decide (1 < sim.nr_available_actions) then
      .error (.runtimeError "Must specify an action in nondeterministic models.")
    else
      .ok 0
  | some a =>
    match a, sim.action_mode with
    | .int n, .INDEX_LEVEL =>
      if (sim.nr_available_actions : Int) ≤ n then
        .error (.runtimeError
          ("Only " ++ toString sim.nr_available_actions ++ " actions available"))
      else
        .ok n
    | _, _ =>
      if sim.action_mode == .GLOBAL_NAMES then
        match sim.named_actions with
        | .error e => .error e
        | .ok av_actions =>
          match findActionIndex a av_actions with
          | none => .error (.valueError ("Could not find action: " ++ a.toStr))
          | some action_index => .ok (action_index : Int)
      else
        .error (.valueError ("Unrecognized type of action " ++ a.toStr))

end SparseSimulator

/-- A Python value passed to the factory: either an instance of
`stormpy.storage._ModelBase`, or any other object. -/
inductive FactoryArg
  | modelBase (m : Model)
  | other

/-- `create_simulator`: a sparse `_ModelBase` yields a `SparseSimulator`;
a non-sparse `_ModelBase` falls through both guards and the function
returns `None`; a non-model argument raises the not-implemented error. -/
def create_simulator (model : FactoryArg) (seed : Option Int) :
    Except PyError (Option SparseSimulator) :=
  match model with
  | .modelBase m =>
    if m.is_sparse_model then .ok (some (SparseSimulator.init m seed))
    else .ok none
  | .other =>
    .error (.notImplementedError "Currently, we only support simulators for sparse models.")

/-! ### Concrete model instances used to evaluate the definitions -/

/-- A deterministic sparse chain without choice labeling or state
valuations.  Its engine maps any raw action index `a` to state
`(a + 20).toNat` with reward 5, which makes the index the engine received
visible in the successor state. -/
def mDet : Model :=
  { model_type := .DTMC
  , is_sparse_model := true
  , is_nondeterministic_model := false
  , has_choice_labeling := false
  , get_labels_of_choice := fun _ => []
  , get_choice_index := fun _ a => a
  , get_nr_available_actions := fun _ => 1
  , has_state_valuations := false
  , state_valuations := fun s => "s" ++ toString s
  , get_observation := fun _ => 0
  , is_sink_state := fun _ => false
  , engine_step := fun _ a => some ((a + 20).toNat, 5)
  , engine_initial_state := 0
  , engine_initial_reward := 0 }

/-- A nondeterministic sparse model offering two actions at every state,
without choice labeling. -/
def mNondet : Model :=
  { mDet with
    model_type := .MDP
  , is_nondeterministic_model := true
  , get_nr_available_actions := fun _ => 2 }

/-- A nondeterministic sparse model with choice labeling: at every state,
the choice at offset 0 carries no label and the choice at offset 1 carries
exactly the label "alpha". -/
def mLab : Model :=
  { mNondet with
    has_choice_labeling := true
  , get_labels_of_choice := fun c => if c = 0 then [] else ["alpha"]
  , engine_step := fun s a => some (100 * s + (a + 1).toNat, 7) }

/-- A deterministic sparse model with choice labeling ("go" on its single
choice) and an engine that moves one state forward with reward 2. -/
def mLabDet : Model :=
  { mDet with
    has_choice_labeling := true
  , get_labels_of_choice := fun _ => ["go"]
  , engine_step := fun s _ => some (s + 1, 2) }

/-- A nondeterministic labeled model on which the label at offset 0 and the
label at offset 1 coincide ("a" on both choices), while the two choices
move the engine to different states. -/
def mDup : Model :=
  { mNondet with
    has_choice_labeling := true
  , get_labels_of_choice := fun _ => ["a"]
  , engine_step := fun _ a => some (if a = 0 then 100 else 200, 1) }

/-- A partially observable sparse model. -/
def mPomdp : Model :=
  { mNondet with
    model_type := .POMDP
  , get_observation := fun s => s % 3 }

/-! ### C1: `set_observation_mode` with program-level mode and no valuations -/

/-- C1 counterexample: on a model without state valuations, selecting
program-level observation raises the configuration error, but the
observation mode has already been committed to `PROGRAM_LEVEL` by the base
class — it does not remain at its previous value `STATE_LEVEL`. -/
theorem set_observation_mode_failure_commits_mode :
    (SparseSimulator.init mDet none).observation_mode
      = SimulatorObservationMode.STATE_LEVEL ∧
    ((SparseSimulator.init mDet none).set_observation_mode .PROGRAM_LEVEL).2
      = .error (.runtimeError "Program level observations require model with state valuations") ∧
    ((SparseSimulator.init mDet none).set_observation_mode .PROGRAM_LEVEL).1.observation_mode
      = SimulatorObservationMode.PROGRAM_LEVEL :=
  ⟨rfl, rfl, rfl⟩

/-- C1 amended: on any simulator whose model lacks state valuations,
`set_observation_mode(PROGRAM_LEVEL)` raises the configuration error, and
the post-call object is the old one with exactly the observation-mode field
changed to `PROGRAM_LEVEL` — the mode is committed before the validation
fires, while the engine, the cached valuations and every other field are
untouched. -/
theorem set_observation_mode_program_level_no_valuations (sim : SparseSimulator)
    (h : sim.model.has_state_valuations = false) :
    (sim.set_observation_mode .PROGRAM_LEVEL).2
      = .error (.runtimeError "Program level observations require model with state valuations") ∧
    (sim.set_observation_mode .PROGRAM_LEVEL).1
      = { sim with observation_mode := .PROGRAM_LEVEL } := by
  constructor <;> simp [SparseSimulator.set_observation_mode, h]

/-- C1 witness: the amended statement evaluated on a concrete simulator
over `mDet`, which has no state valuations. -/
theorem set_observation_mode_program_level_no_valuations_witness :
    ((SparseSimulator.init mDet none).set_observation_mode .PROGRAM_LEVEL).2
      = .error (.runtimeError "Program level observations require model with state valuations") ∧
    ((SparseSimulator.init mDet none).set_observation_mode .PROGRAM_LEVEL).1
      = { SparseSimulator.init mDet none with observation_mode := .PROGRAM_LEVEL } :=
  set_observation_mode_program_level_no_valuations (SparseSimulator.init mDet none) rfl

/-! ### C2: the factory on unsupported models -/

/-- C2: evaluated at the failing input — a `_ModelBase` instance whose
representation is not sparse — `create_simulator` returns `None` instead of
raising; the unsupported-model error is only reached for arguments that are
not model instances at all, and a sparse model yields the bound backend. -/
theorem create_simulator_nonsparse_returns_none :
    create_simulator (.modelBase { mDet with is_sparse_model := false }) none = .ok none ∧
    create_simulator .other none
      = .error (.notImplementedError "Currently, we only support simulators for sparse models.") ∧
    create_simulator (.modelBase mDet) none = .ok (some (SparseSimulator.init mDet none)) :=
  ⟨rfl, rfl, rfl⟩

/-! ### C3: integer actions under index addressing -/

/-- C3 counterexample: with one available action, `step(-1)` is not
rejected with the out-of-bounds error — the bound check only tests the
upper bound, so the negative index is delegated to the engine, which here
moves to state `(-1 + 20).toNat = 19`. -/
theorem step_negative_index_not_rejected :
    ((SparseSimulator.init mDet none).nr_available_actions = 1) ∧
    ((SparseSimulator.init mDet none).step (some (.int (-1)))).2
      = .ok (.state 19, 5) ∧
    ((SparseSimulator.init mDet none).step (some (.int (-1)))).1.engine
      = { current_state := 19, last_reward := 5 } :=
  ⟨rfl, rfl, rfl⟩

/-- C3 amended: under index addressing, an integer action is delegated to
the engine if and only if it is below `nr_available_actions()` — so every
negative integer is delegated rather than rejected — while an integer at or
above the bound fails with the out-of-range error and leaves the simulator
unchanged. -/
theorem step_index_characterization (sim : SparseSimulator) (n : Int)
    (hmode : sim.action_mode = SimulatorActionMode.INDEX_LEVEL) :
    ((sim.nr_available_actions : Int) ≤ n →
      sim.step (some (.int n)) = (sim, .error (.runtimeError
        ("Only " ++ toString sim.nr_available_actions ++ " actions available")))) ∧
    (n < (sim.nr_available_actions : Int) →
      sim.step (some (.int n)) = sim.stepEngine n) := by
  constructor
  · intro h
    simp [SparseSimulator.step, hmode, h]
  · intro h
    simp [SparseSimulator.step, hmode, not_le.mpr h]

/-- C3 witness: the characterization evaluated with action 5 against a
single-action simulator yields the concrete out-of-range error. -/
theorem step_index_characterization_witness :
    (SparseSimulator.init mDet none).step (some (.int 5))
      = (SparseSimulator.init mDet none,
         .error (.runtimeError "Only 1 actions available")) :=
  (step_index_characterization (SparseSimulator.init mDet none) 5 rfl).1 (by decide)

/-! ### Helper lemmas about `step` and the reporting pipeline -/

/-- `step` is its action-resolution phase followed by engine delegation:
validation failures return the unchanged simulator with the error, a
resolved index goes through `stepEngine`. -/
theorem step_eq_resolve (sim : SparseSimulator) (act : Option PyAction) :
    sim.step act =
      match sim.resolveAction act with
      | .error e => (sim, .error e)
      | .ok a => sim.stepEngine a := by
  cases act with
  | none =>
    unfold SparseSimulator.step SparseSimulator.resolveAction
    by_cases hc : (sim.model.is_nondeterministic_model
        && decide (1 < sim.nr_available_actions)) = true
    · simp only [if_pos hc]
    · simp only [if_neg hc]
  | some a =>
    unfold SparseSimulator.step SparseSimulator.resolveAction
    cases a with
    | int n =>
      cases ham : sim.action_mode with
      | INDEX_LEVEL =>
        simp only [ham]
        by_cases hle : ((sim.nr_available_actions : Int) ≤ n)
        · simp only [if_pos hle]
        · simp only [if_neg hle]
      | GLOBAL_NAMES =>
        simp only [ham]
        cases hna : sim.named_actions with
        | error e => simp
        | ok av =>
          cases hfa : SparseSimulator.findActionIndex (.int n) av <;> simp [hfa]
    | str s =>
      cases ham : sim.action_mode with
      | INDEX_LEVEL => simp [ham]
      | GLOBAL_NAMES =>
        simp only [ham]
        cases hna : sim.named_actions with
        | error e => simp
        | ok av =>
          cases hfa : SparseSimulator.findActionIndex (.str s) av <;> simp [hfa]

/-- The reporting pipeline never raises a `RuntimeError`: its possible
failures are attribute, assertion and not-implemented errors. -/
theorem report_result_ne_runtimeError (sim : SparseSimulator) (msg : String) :
    sim.report_result ≠ .error (.runtimeError msg) := by
  unfold SparseSimulator.report_result SparseSimulator.report_state
    SparseSimulator.report_observation
  by_cases hmt : sim.model.model_type = ModelType.POMDP <;>
    cases hfo : sim.full_observe <;> cases hom : sim.observation_mode <;>
      cases hsv : sim.state_valuations <;>
      simp [hfo, hom, hsv, hmt, bne_iff_ne, Except.map]

/-- `stepEngine` never raises a `RuntimeError` either: an engine failure is
an assertion error and the rest is the reporting pipeline. -/
theorem stepEngine_ne_runtimeError (sim : SparseSimulator) (a : Int) (msg : String) :
    (sim.stepEngine a).2 ≠ .error (.runtimeError msg) := by
  unfold SparseSimulator.stepEngine
  cases h : sim.engineStepRaw a with
  | none => simp
  | some sim1 => simpa using report_result_ne_runtimeError sim1 msg

/-- A successful report carries the engine's last reward as its reward
component. -/
theorem report_result_ok_reward (sim : SparseSimulator) (r : StepResult)
    (h : sim.report_result = .ok r) : r.2 = sim.engine.last_reward := by
  unfold SparseSimulator.report_result SparseSimulator.report_rewards at h
  by_cases hfo : sim.full_observe = true
  · rw [if_pos hfo] at h
    cases hs : sim.report_state with
    | error e => rw [hs] at h; simp [Except.map] at h
    | ok o =>
      rw [hs] at h
      simp [Except.map] at h
      rw [← h]
  · rw [if_neg hfo] at h
    cases hs : sim.report_observation with
    | error e => rw [hs] at h; simp [Except.map] at h
    | ok o =>
      rw [hs] at h
      simp [Except.map] at h
      rw [← h]

/-- A successful `stepEngine` outcome carries the post-step engine's last
reward as its reward component. -/
theorem stepEngine_ok_reward (sim : SparseSimulator) (a : Int) (r : StepResult)
    (h : (sim.stepEngine a).2 = .ok r) :
    r.2 = (sim.stepEngine a).1.engine.last_reward := by
  unfold SparseSimulator.stepEngine at h ⊢
  cases he : sim.engineStepRaw a with
  | none => rw [he] at h; simp at h
  | some sim1 =>
    rw [he] at h
    dsimp at h ⊢
    exact report_result_ok_reward sim1 r h

/-- A successful `step` outcome carries the post-step engine's last reward
as its reward component. -/
theorem step_ok_reward (sim : SparseSimulator) (act : Option PyAction) (r : StepResult)
    (h : (sim.step act).2 = .ok r) : r.2 = (sim.step act).1.engine.last_reward := by
  rw [step_eq_resolve] at h ⊢
  cases hra : sim.resolveAction act with
  | error e => rw [hra] at h; simp at h
  | ok a =>
    rw [hra] at h
    dsimp at h ⊢
    exact stepEngine_ok_reward sim a r h

/-! ### C4: `step` with the action omitted -/

/-- C4: with at least one action available at the current state (as every
state of a sparse model has), `step` with the action omitted resolves to
engine index 0 exactly when the model is deterministic or exactly one
action is available, and it fails with the ambiguity error — leaving the
simulator unchanged — exactly otherwise. -/
theorem step_omitted_characterization (sim : SparseSimulator)
    (hnr : 1 ≤ sim.nr_available_actions) :
    ((sim.model.is_nondeterministic_model = false ∨ sim.nr_available_actions = 1) →
      sim.step none = sim.stepEngine 0) ∧
    (sim.step none
        = (sim, .error (.runtimeError "Must specify an action in nondeterministic models."))
      ↔ ¬(sim.model.is_nondeterministic_model = false ∨ sim.nr_available_actions = 1)) := by
  have hsucc : (sim.model.is_nondeterministic_model = false ∨ sim.nr_available_actions = 1) →
      sim.step none = sim.stepEngine 0 := by
    rintro (h | h) <;> simp [SparseSimulator.step, h]
  refine ⟨hsucc, ?_, ?_⟩
  · intro heq hcase
    have h2 : sim.stepEngine 0
        = (sim, .error (.runtimeError "Must specify an action in nondeterministic models.")) :=
      (hsucc hcase).symm.trans heq
    exact stepEngine_ne_runtimeError sim 0 "Must specify an action in nondeterministic models."
      (congrArg Prod.snd h2)
  · intro hc
    rw [not_or] at hc
    obtain ⟨h1, h2⟩ := hc
    have hb : sim.model.is_nondeterministic_model = true := by
      cases hbv : sim.model.is_nondeterministic_model
      · exact absurd hbv h1
      · rfl
    have hlt : 1 < sim.nr_available_actions := lt_of_le_of_ne hnr (Ne.symm h2)
    simp [SparseSimulator.step, hb, hlt]

/-- C4 witness: on a nondeterministic simulator with two available
actions, the omitted-action step yields the concrete ambiguity error with
the simulator unchanged. -/
theorem step_omitted_characterization_witness :
    (SparseSimulator.init mNondet none).step none
      = (SparseSimulator.init mNondet none,
         .error (.runtimeError "Must specify an action in nondeterministic models.")) :=
  ((step_omitted_characterization (SparseSimulator.init mNondet none) (by decide)).2).mpr
    (by decide)

/-! ### Helper lemmas about the naming loop -/

/-- An offset whose label set has at most one element gets the synthesized
name on an empty set and the unique label otherwise. -/
theorem nameOfOffset_of_le_one (m : Model) (cur i : Nat)
    (h : (m.get_labels_of_choice (m.get_choice_index cur i)).length ≤ 1) :
    SparseSimulator.nameOfOffset m cur i = .ok (
      if (m.get_labels_of_choice (m.get_choice_index cur i)).length = 0
      then "_act_" ++ toString i
      else (m.get_labels_of_choice (m.get_choice_index cur i)).headD "") := by
  unfold SparseSimulator.nameOfOffset
  rcases Nat.lt_or_ge (m.get_labels_of_choice (m.get_choice_index cur i)).length 1 with hl | hl
  · simp [Nat.lt_one_iff.mp hl]
  · simp [le_antisymm h hl]

/-- An offset whose label set has two or more elements fails the naming
loop with the unsupported-shape assertion. -/
theorem nameOfOffset_of_two_le (m : Model) (cur i : Nat)
    (h : 2 ≤ (m.get_labels_of_choice (m.get_choice_index cur i)).length) :
    SparseSimulator.nameOfOffset m cur i
      = .error (.assertionError "Unknown type of choice label, support not implemented") := by
  unfold SparseSimulator.nameOfOffset
  have h0 : ¬ ((m.get_labels_of_choice (m.get_choice_index cur i)).length = 0) := by omega
  have h1 : ¬ ((m.get_labels_of_choice (m.get_choice_index cur i)).length = 1) := by omega
  simp [h0, h1]

/-- When every listed offset carries at most one label, the naming loop
succeeds with the per-offset names. -/
theorem buildNames_ok (m : Model) (cur : Nat) (l : List Nat)
    (h : ∀ i ∈ l, (m.get_labels_of_choice (m.get_choice_index cur i)).length ≤ 1) :
    SparseSimulator.buildNames m cur l = .ok (l.map (fun i =>
      if (m.get_labels_of_choice (m.get_choice_index cur i)).length = 0
      then "_act_" ++ toString i
      else (m.get_labels_of_choice (m.get_choice_index cur i)).headD "")) := by
  induction l with
  | nil => rfl
  | cons a t ih =>
    have ha := h a (List.mem_cons_self a t)
    have ht := fun i hi => h i (List.mem_cons_of_mem a hi)
    simp [SparseSimulator.buildNames, nameOfOffset_of_le_one m cur a ha, ih ht, Except.map]

/-- When some listed offset carries two or more labels, the naming loop
fails with the unsupported-shape assertion. -/
theorem buildNames_error (m : Model) (cur : Nat) (l : List Nat)
    (h : ∃ i ∈ l, 2 ≤ (m.get_labels_of_choice (m.get_choice_index cur i)).length) :
    SparseSimulator.buildNames m cur l
      = .error (.assertionError "Unknown type of choice label, support not implemented") := by
  induction l with
  | nil => simp at h
  | cons a t ih =>
    by_cases ha : 2 ≤ (m.get_labels_of_choice (m.get_choice_index cur a)).length
    · simp [SparseSimulator.buildNames, nameOfOffset_of_two_le m cur a ha]
    · obtain ⟨i, hi, h2⟩ := h
      rcases List.mem_cons.mp hi with rfl | hit
      · exact absurd h2 ha
      · have hale : (m.get_labels_of_choice (m.get_choice_index cur a)).length ≤ 1 := by
          omega
        simp [SparseSimulator.buildNames, nameOfOffset_of_le_one m cur a hale,
          ih ⟨i, hit, h2⟩, Except.map]

/-- A successful naming loop produces one name per listed offset. -/
theorem buildNames_length (m : Model) (cur : Nat) (l : List Nat) (names : List String)
    (h : SparseSimulator.buildNames m cur l = .ok names) : names.length = l.length := by
  induction l generalizing names with
  | nil =>
    simp [SparseSimulator.buildNames] at h
    simp [← h]
  | cons a t ih =>
    unfold SparseSimulator.buildNames at h
    cases hn : SparseSimulator.nameOfOffset m cur a with
    | error e => rw [hn] at h; simp at h
    | ok name =>
      rw [hn] at h
      cases hb : SparseSimulator.buildNames m cur t with
      | error e => rw [hb] at h; simp [Except.map] at h
      | ok ns =>
        rw [hb] at h
        simp [Except.map] at h
        simp [← h, ih ns hb]

/-- A successful `named_actions` implies the model has choice labeling and
yields one name per available action. -/
theorem named_actions_ok_elim (sim : SparseSimulator) (ls : List String)
    (h : sim.named_actions = .ok ls) :
    sim.model.has_choice_labeling = true ∧ ls.length = sim.nr_available_actions := by
  unfold SparseSimulator.named_actions at h
  cases hlab : sim.model.has_choice_labeling
  · rw [hlab] at h; simp at h
  · rw [hlab] at h
    simp at h
    refine ⟨rfl, ?_⟩
    simpa using buildNames_length _ _ _ _ h

/-- In global-names mode a successful `available_actions` is exactly a
successful `named_actions`. -/
theorem available_actions_names_elim (sim : SparseSimulator) (ls : List String)
    (hmode : sim.action_mode = SimulatorActionMode.GLOBAL_NAMES)
    (h : sim.available_actions = .ok (.names ls)) :
    sim.named_actions = .ok ls := by
  unfold SparseSimulator.available_actions at h
  rw [hmode] at h
  cases hn : sim.named_actions with
  | error e => rw [hn] at h; simp [Except.map] at h
  | ok l2 =>
    rw [hn] at h
    simp [Except.map] at h
    rw [h]

/-! ### C5: `available_actions` in global-names mode -/

/-- C5: in global-names mode, `available_actions` fails with the
configuration error before iterating when the model lacks choice labeling;
with labeling present it returns, per offset, the synthesized name
`"_act_" ++ offset` on an empty label set and the unique label on a
singleton set, and it fails with the unsupported-shape assertion as soon as
any listed choice carries more than one label.  (The call never touches the
engine: it is a pure function of the simulator state.) -/
theorem available_actions_global_names (sim : SparseSimulator)
    (hmode : sim.action_mode = SimulatorActionMode.GLOBAL_NAMES) :
    (sim.model.has_choice_labeling = false →
      sim.available_actions = .error (.runtimeError
        "Global names action mode requires model with choice labeling")) ∧
    (sim.model.has_choice_labeling = true →
      ((∀ i ∈ List.range sim.nr_available_actions,
          (sim.model.get_labels_of_choice
            (sim.model.get_choice_index sim.engine.current_state i)).length ≤ 1) →
        sim.available_actions = .ok (.names ((List.range sim.nr_available_actions).map
          (fun i =>
            if (sim.model.get_labels_of_choice
                  (sim.model.get_choice_index sim.engine.current_state i)).length = 0
            then "_act_" ++ toString i
            else (sim.model.get_labels_of_choice
                  (sim.model.get_choice_index sim.engine.current_state i)).headD "")))) ∧
      ((∃ i ∈ List.range sim.nr_available_actions,
          2 ≤ (sim.model.get_labels_of_choice
                (sim.model.get_choice_index sim.engine.current_state i)).length) →
        sim.available_actions = .error (.assertionError
          "Unknown type of choice label, support not implemented"))) := by
  refine ⟨?_, fun hlab => ⟨?_, ?_⟩⟩
  · intro hlab
    simp [SparseSimulator.available_actions, hmode, SparseSimulator.named_actions, hlab,
      Except.map]
  · intro h
    simp [SparseSimulator.available_actions, hmode, SparseSimulator.named_actions, hlab,
      buildNames_ok sim.model sim.engine.current_state _ h, Except.map]
  · intro h
    simp [SparseSimulator.available_actions, hmode, SparseSimulator.named_actions, hlab,
      buildNames_error sim.model sim.engine.current_state _ h, Except.map]

/-- C5 witness: on a labeled model whose choice 0 has no label and whose
choice 1 has the unique label "alpha", the two available actions are the
synthesized "_act_0" and "alpha". -/
theorem available_actions_global_names_witness :
    ((SparseSimulator.init mLab none).set_action_mode .GLOBAL_NAMES).available_actions
      = .ok (.names ["_act_0", "alpha"]) :=
  ((available_actions_global_names
    ((SparseSimulator.init mLab none).set_action_mode .GLOBAL_NAMES) rfl).2 rfl).1 (by decide)

/-! ### C6: the observation component of a reported result -/

/-- C6: the reported result is determined by the full-observability flag
and the observation mode at the current engine state: fully observable
state-level reporting returns the raw current state; fully observable
program-level reporting returns the cached valuation record of the current
state; partially observable state-level reporting returns the POMDP's
observation class; and partially observable program-level reporting fails
with the not-implemented error. -/
theorem report_result_observation_cases (sim : SparseSimulator) :
    (sim.full_observe = true → sim.observation_mode = .STATE_LEVEL →
      sim.report_result = .ok (.state sim.engine.current_state, sim.engine.last_reward)) ∧
    (sim.full_observe = true → sim.observation_mode = .PROGRAM_LEVEL →
      ∀ sv, sim.state_valuations = some sv →
      sim.report_result
        = .ok (.valuation (sv sim.engine.current_state), sim.engine.last_reward)) ∧
    (sim.full_observe = false → sim.observation_mode = .STATE_LEVEL →
      sim.model.model_type = .POMDP →
      sim.report_result
        = .ok (.obsClass (sim.model.get_observation sim.engine.current_state),
               sim.engine.last_reward)) ∧
    (sim.full_observe = false → sim.observation_mode = .PROGRAM_LEVEL →
      sim.model.model_type = .POMDP →
      sim.report_result = .error (.notImplementedError
        "Program level observations are not implemented in storm")) := by
  refine ⟨?_, ?_, ?_, ?_⟩ <;> intros <;>
    simp_all [SparseSimulator.report_result, SparseSimulator.report_state,
      SparseSimulator.report_observation, SparseSimulator.report_rewards, Except.map]

/-- C6 witness: a POMDP simulator switched to program-level mode without
full observability reports the concrete not-implemented error. -/
theorem report_result_observation_cases_witness :
    ({ SparseSimulator.init mPomdp none with
        observation_mode := .PROGRAM_LEVEL } : SparseSimulator).report_result
      = .error (.notImplementedError
          "Program level observations are not implemented in storm") :=
  (report_result_observation_cases
    { SparseSimulator.init mPomdp none with observation_mode := .PROGRAM_LEVEL }).2.2.2
    rfl rfl rfl

/-! ### C8: omitted action on a deterministic model -/

/-- C8 counterexample: on a deterministic labeled model in global-names
mode, `step(0)` fails with the unknown-action error from the label scan —
the integer 0 never equals a string label — while `step` with the action
omitted succeeds, so the two are not behaviorally identical in every mode
configuration. -/
theorem step_omitted_vs_zero_global_names :
    ((((SparseSimulator.init mLabDet none).set_action_mode .GLOBAL_NAMES).step
        (some (.int 0))).2
      = .error (.valueError "Could not find action: 0")) ∧
    ((((SparseSimulator.init mLabDet none).set_action_mode .GLOBAL_NAMES).step none).2
      = .ok (.state 1, 2)) :=
  ⟨rfl, rfl⟩

/-- C8 amended: on a deterministic model, `step` with the action omitted
always passes validation and delegates index 0 to the engine, in every mode
configuration; and under index addressing it is behaviorally identical to
`step(0)`. -/
theorem step_omitted_deterministic (sim : SparseSimulator)
    (hdet : sim.model.is_nondeterministic_model = false) :
    sim.step none = sim.stepEngine 0 ∧
    (sim.action_mode = .INDEX_LEVEL → sim.step (some (.int 0)) = sim.step none) := by
  have h1 : sim.step none = sim.stepEngine 0 := by
    simp [SparseSimulator.step, hdet]
  refine ⟨h1, fun hm => ?_⟩
  rw [h1]
  have hnr : sim.nr_available_actions = 1 := by
    simp [SparseSimulator.nr_available_actions, hdet]
  simp [SparseSimulator.step, hm, hnr]

/-- C8 witness: on the concrete deterministic simulator in the default
index mode, `step(0)` and the omitted-action step coincide. -/
theorem step_omitted_deterministic_witness :
    (SparseSimulator.init mDet none).step (some (.int 0))
      = (SparseSimulator.init mDet none).step none :=
  (step_omitted_deterministic (SparseSimulator.init mDet none) rfl).2 rfl

/-! ### Helper lemmas about the label scan -/

/-- The label scan finds nothing when the action equals none of the listed
labels. -/
theorem findActionIndex_none (a : PyAction) (ls : List String)
    (h : ∀ l ∈ ls, pyEqLabel a l = false) :
    SparseSimulator.findActionIndex a ls = none := by
  induction ls with
  | nil => rfl
  | cons l t ih =>
    simp [SparseSimulator.findActionIndex, h l (List.mem_cons_self l t),
      ih (fun x hx => h x (List.mem_cons_of_mem l hx))]

/-- On a duplicate-free label list the scan maps each label back to its
own offset. -/
theorem findActionIndex_get (ls : List String) (i : Nat) (hi : i < ls.length)
    (hnd : ls.Nodup) :
    SparseSimulator.findActionIndex (.str (ls.get ⟨i, hi⟩)) ls = some i := by
  induction ls generalizing i with
  | nil => simp at hi
  | cons l t ih =>
    rcases List.nodup_cons.mp hnd with ⟨hl, ht⟩
    cases i with
    | zero => simp [SparseSimulator.findActionIndex, pyEqLabel]
    | succ j =>
      have hj : j < t.length := Nat.lt_of_succ_lt_succ hi
      have hne : ¬ (t[j] = l) := fun he => hl (he ▸ List.getElem_mem hj)
      have ihj := ih j hj ht
      simp only [List.get_eq_getElem] at ihj
      simp [SparseSimulator.findActionIndex, pyEqLabel, hne, ihj, List.get_eq_getElem]

/-- `nr_available_actions` ignores the action mode. -/
theorem nr_available_actions_set_action_mode (sim : SparseSimulator)
    (am : SimulatorActionMode) :
    (sim.set_action_mode am).nr_available_actions = sim.nr_available_actions := by
  cases sim; rfl

/-- `stepEngine` ignores the action mode: changing it changes neither the
post-step engine nor the reported outcome. -/
theorem stepEngine_set_action_mode (sim : SparseSimulator) (am : SimulatorActionMode)
    (a : Int) :
    ((sim.set_action_mode am).stepEngine a).1.engine = (sim.stepEngine a).1.engine ∧
    ((sim.set_action_mode am).stepEngine a).2 = (sim.stepEngine a).2 := by
  cases sim with
  | mk model engine seed om am0 fo sv =>
    unfold SparseSimulator.set_action_mode SparseSimulator.stepEngine
      SparseSimulator.engineStepRaw
    dsimp
    cases model.engine_step engine.current_state a with
    | none => exact ⟨rfl, rfl⟩
    | some p => cases p; exact ⟨rfl, rfl⟩

/-! ### C7: labels round-trip to their offsets -/

/-- C7 counterexample: on a model where the choices at offsets 0 and 1
both carry the label "a", the available actions are ["a", "a"]; stepping
with the label read off at offset 1 resolves by first match to index 0
(engine moves to state 100), while stepping with the index 1 under index
addressing takes the other transition (engine moves to state 200). -/
theorem step_label_first_match_counterexample :
    (((SparseSimulator.init mDup none).set_action_mode .GLOBAL_NAMES).available_actions
      = .ok (.names ["a", "a"])) ∧
    ((((SparseSimulator.init mDup none).set_action_mode .GLOBAL_NAMES).step
        (some (.str "a"))).1.engine.current_state = 100) ∧
    ((((SparseSimulator.init mDup none).set_action_mode .INDEX_LEVEL).step
        (some (.int 1))).1.engine.current_state = 200) :=
  ⟨rfl, rfl, rfl⟩

/-- C7 amended: when the labels listed at the current state are pairwise
distinct, each label returned by `available_actions()` under global-names
mode, passed back to `step()`, resolves to its own offset and takes the
same engine transition with the same reported outcome as stepping with
that offset under index addressing.  (With duplicated labels the scan
resolves to the first matching offset instead.) -/
theorem step_label_matches_index (sim : SparseSimulator) (ls : List String) (i : Nat)
    (hmode : sim.action_mode = SimulatorActionMode.GLOBAL_NAMES)
    (hav : sim.available_actions = .ok (.names ls))
    (hnd : ls.Nodup) (hi : i < ls.length) :
    ((sim.step (some (.str (ls.get ⟨i, hi⟩)))).1.engine
      = ((sim.set_action_mode .INDEX_LEVEL).step (some (.int (i : Int)))).1.engine) ∧
    ((sim.step (some (.str (ls.get ⟨i, hi⟩)))).2
      = ((sim.set_action_mode .INDEX_LEVEL).step (some (.int (i : Int)))).2) := by
  have hna : sim.named_actions = .ok ls := available_actions_names_elim sim ls hmode hav
  have hlen : ls.length = sim.nr_available_actions := (named_actions_ok_elim sim ls hna).2
  have hfind := findActionIndex_get ls i hi hnd
  simp only [List.get_eq_getElem] at hfind
  have hlhs : sim.step (some (.str (ls.get ⟨i, hi⟩))) = sim.stepEngine (i : Int) := by
    simp [SparseSimulator.step, hmode, hna, hfind]
  have hle : ¬ (((sim.set_action_mode .INDEX_LEVEL).nr_available_actions : Int) ≤ (i : Int)) := by
    rw [nr_available_actions_set_action_mode, not_le]
    exact_mod_cast hlen ▸ hi
  have hrhs : (sim.set_action_mode .INDEX_LEVEL).step (some (.int (i : Int)))
      = (sim.set_action_mode .INDEX_LEVEL).stepEngine (i : Int) := by
    rw [step_eq_resolve]
    have hm2 : (sim.set_action_mode .INDEX_LEVEL).action_mode
        = SimulatorActionMode.INDEX_LEVEL := by
      cases sim; rfl
    simp [SparseSimulator.resolveAction, hm2, hle]
  rw [hlhs, hrhs]
  exact ⟨(stepEngine_set_action_mode sim .INDEX_LEVEL (i : Int)).1.symm,
         (stepEngine_set_action_mode sim .INDEX_LEVEL (i : Int)).2.symm⟩

/-- C7 witness: on the labeled model with distinct labels ["_act_0",
"alpha"], stepping with "alpha" reports the same outcome as stepping with
index 1 under index addressing. -/
theorem step_label_matches_index_witness :
    ((((SparseSimulator.init mLab none).set_action_mode .GLOBAL_NAMES).step
        (some (.str "alpha"))).2
      = ((((SparseSimulator.init mLab none).set_action_mode .GLOBAL_NAMES).set_action_mode
            .INDEX_LEVEL).step (some (.int 1))).2) :=
  (step_label_matches_index ((SparseSimulator.init mLab none).set_action_mode .GLOBAL_NAMES)
    ["_act_0", "alpha"] 1 rfl rfl (by decide) (by decide)).2

/-! ### C9: reward reporting and observability -/

/-- Action resolution ignores the observability configuration. -/
theorem resolveAction_withObservability (sim : SparseSimulator)
    (om : SimulatorObservationMode) (fo : Bool) (sv : Option (Nat → String))
    (act : Option PyAction) :
    (sim.withObservability om fo sv).resolveAction act = sim.resolveAction act := by
  cases sim; rfl

/-- The post-step engine of `stepEngine` ignores the observability
configuration. -/
theorem stepEngine_withObservability_engine (sim : SparseSimulator)
    (om : SimulatorObservationMode) (fo : Bool) (sv : Option (Nat → String)) (a : Int) :
    ((sim.withObservability om fo sv).stepEngine a).1.engine
      = (sim.stepEngine a).1.engine := by
  cases sim with
  | mk model engine seed om0 am fo0 sv0 =>
    unfold SparseSimulator.withObservability SparseSimulator.stepEngine
      SparseSimulator.engineStepRaw
    dsimp
    cases model.engine_step engine.current_state a with
    | none => rfl
    | some p => cases p; rfl

/-- The post-step engine of `step` ignores the observability
configuration. -/
theorem step_withObservability_engine (sim : SparseSimulator)
    (om : SimulatorObservationMode) (fo : Bool) (sv : Option (Nat → String))
    (act : Option PyAction) :
    ((sim.withObservability om fo sv).step act).1.engine = (sim.step act).1.engine := by
  rw [step_eq_resolve, step_eq_resolve, resolveAction_withObservability]
  cases sim.resolveAction act with
  | error e => cases sim; rfl
  | ok a => exact stepEngine_withObservability_engine sim om fo sv a

/-- C9: the reward component of a successful `step` or `restart` outcome
is the engine's last reported reward (for `restart`, the reward the engine
attaches to the reset); replacing the observation mode, the
full-observability flag and the cached valuations never changes the reward
component of a successful outcome at the same engine state. -/
theorem reward_reporting_independent (sim : SparseSimulator)
    (om : SimulatorObservationMode) (fo : Bool) (sv : Option (Nat → String))
    (act : Option PyAction) (r r2 : StepResult) :
    ((sim.step act).2 = .ok r → r.2 = (sim.step act).1.engine.last_reward) ∧
    ((sim.restart).2 = .ok r → r.2 = sim.model.engine_initial_reward) ∧
    ((sim.step act).2 = .ok r → ((sim.withObservability om fo sv).step act).2 = .ok r2 →
      r.2 = r2.2) ∧
    ((sim.restart).2 = .ok r → ((sim.withObservability om fo sv).restart).2 = .ok r2 →
      r.2 = r2.2) := by
  have hrestart : ∀ (s : SparseSimulator) (x : StepResult),
      (s.restart).2 = .ok x → x.2 = s.model.engine_initial_reward := by
    intro s x hx
    simpa using report_result_ok_reward _ x hx
  refine ⟨step_ok_reward sim act r, hrestart sim r, ?_, ?_⟩
  · intro h1 h2
    have e1 := step_ok_reward sim act r h1
    have e2 := step_ok_reward _ act r2 h2
    rw [step_withObservability_engine] at e2
    rw [e1, e2]
  · intro h1 h2
    have e1 := hrestart sim r h1
    have e2 := hrestart _ r2 h2
    have hm : (sim.withObservability om fo sv).model = sim.model := by cases sim; rfl
    rw [hm] at e2
    rw [e1, e2]

/-- C9 witness: on the concrete deterministic simulator, the reward of the
successful omitted-action step equals the post-step engine's last reward. -/
theorem reward_reporting_independent_witness :
    (((Observation.state 20 : Observation), (5 : Int)) : StepResult).2
      = ((SparseSimulator.init mDet none).step none).1.engine.last_reward :=
  (reward_reporting_independent (SparseSimulator.init mDet none) .STATE_LEVEL true none
    none ((.state 20), 5) ((.state 20), 5)).1 rfl

/-! ### C10: unknown actions in global-names mode -/

/-- C10: in global-names mode with a successfully listed label set,
`step` performs no type check on the action: any value equal to none of
the current labels — in particular every integer, which never equals a
string label — fails with the unknown-action `ValueError` produced by the
label scan, never a distinct wrong-type error, and the simulator is
returned unchanged. -/
theorem step_global_names_unknown_action (sim : SparseSimulator) (ls : List String)
    (hmode : sim.action_mode = SimulatorActionMode.GLOBAL_NAMES)
    (hav : sim.named_actions = .ok ls) :
    (∀ a : PyAction, (∀ l ∈ ls, pyEqLabel a l = false) →
      sim.step (some a)
        = (sim, .error (.valueError ("Could not find action: " ++ a.toStr)))) ∧
    (∀ n : Int, sim.step (some (.int n))
      = (sim, .error (.valueError ("Could not find action: " ++ toString n)))) := by
  have main : ∀ a : PyAction, (∀ l ∈ ls, pyEqLabel a l = false) →
      sim.step (some a)
        = (sim, .error (.valueError ("Could not find action: " ++ a.toStr))) := by
    intro a ha
    have hf := findActionIndex_none a ls ha
    cases a with
    | int n => simp [SparseSimulator.step, hmode, hav, hf]
    | str s => simp [SparseSimulator.step, hmode, hav, hf]
  exact ⟨main, fun n => main (.int n) (fun l _ => rfl)⟩

/-- C10 witness: stepping with the integer 42 on a labeled simulator in
global-names mode yields the concrete unknown-action error with the
simulator unchanged. -/
theorem step_global_names_unknown_action_witness :
    ((SparseSimulator.init mLab none).set_action_mode .GLOBAL_NAMES).step (some (.int 42))
      = ((SparseSimulator.init mLab none).set_action_mode .GLOBAL_NAMES,
         .error (.valueError "Could not find action: 42")) :=
  (step_global_names_unknown_action
    ((SparseSimulator.init mLab none).set_action_mode .GLOBAL_NAMES)
    ["_act_0", "alpha"] rfl rfl).2 42

end Stormpy
